import Mathlib

/-!
Verification development for the game-age-verification-dapp repository.

The repository implements a privacy-preserving age-verification service for
sports betting.  Two server implementations exist: `simple-gap-server.js`
(plain Node http, the primary server) and `src/gap-server.js` (express
variant).  Both simulate the zero-knowledge proof backend with SHA-256
hashes; the circom circuit (`AgeVerification`) is shipped but never invoked
by either server.

Modelling conventions:
* SHA-256 (hex digest) is an opaque pure `hash : String → String` parameter
  threaded through every definition that hashes; the JS pattern
  `createHash('sha256').update(s).digest('hex').substring(0, 16)` becomes
  `truncHash hash s`.  No claim depends on actual SHA-256 output values.
* JS numbers appearing as bet amounts are modelled by `JSNum`
  (rationals plus NaN, the two infinities and undefined) with IEEE-style
  comparison and JS truthiness semantics.
* Millisecond clock readings (`Date.now()`) are `Nat` parameters; the cached
  ISO-8601 `expiresAt` strings round-trip through `new Date(...)` back to the
  same millisecond value, so expiry timestamps are kept as `Nat`.
* The in-memory `Map` proof cache is an association list updated by consing,
  which matches `Map.set`/`Map.get` observably (latest binding wins).
-/

namespace AgeVerificationDapp

/-- Models `.digest('hex').substring(0, 16)`: apply the hash and keep the
first 16 characters, as every hashing site in both servers does. -/
def truncHash (hash : String → String) (s : String) : String :=
  (hash s).take 16

/-- Concrete stand-in hash used only by closed witness/counterexample
theorems (string reversal, so that suffix differences become prefix
differences visible to the 16-character truncation). -/
def strRev (s : String) : String :=
  String.mk s.data.reverse

/-- JS number as it can reach the eligibility checks from JSON:
a finite rational, NaN, one of the infinities, or `undefined` (absent field). -/
inductive JSNum where
  | undef : JSNum
  | nan : JSNum
  | inf : JSNum
  | negInf : JSNum
  | num : ℚ → JSNum
deriving DecidableEq, Repr

/-- JS truthiness test `!x` for a number-typed value: `undefined`, `NaN`
and `0` are falsy, everything else truthy. -/
def jsFalsy : JSNum → Bool
  | .undef => true
  | .nan => true
  | .num q => q == 0
  | _ => false

/-- JS `<=` on numbers: any comparison involving NaN (or `undefined`, which
coerces to NaN) is false; the infinities compare as in IEEE-754. -/
def jsLe : JSNum → JSNum → Bool
  | .undef, _ => false
  | _, .undef => false
  | .nan, _ => false
  | _, .nan => false
  | .negInf, _ => true
  | _, .inf => true
  | .inf, _ => false
  | _, .negInf => false
  | .num a, .num b => a ≤ b

/-- JS `>` on numbers: NaN/undefined comparisons are false; the infinities
compare as in IEEE-754. -/
def jsGt : JSNum → JSNum → Bool
  | .undef, _ => false
  | _, .undef => false
  | .nan, _ => false
  | _, .nan => false
  | .inf, .inf => false
  | .inf, _ => true
  | _, .inf => false
  | .negInf, _ => false
  | _, .negInf => true
  | .num a, .num b => b < a

/-- Jurisdiction policy entry, `{ maxBet, minAge, restricted }` in both
servers' `getJurisdictionRules`. -/
structure JurisdictionRules where
  maxBet : ℚ
  minAge : ℚ
  restricted : Bool
deriving DecidableEq, Repr

/-- Mirrors `getJurisdictionRules(jurisdiction)` (simple-gap-server.js
lines 323-331 and gap-server.js lines 259-267, identical in both files):
an object literal keyed by US/UK/EU/default, read as
`rules[jurisdiction] || rules['default']`.  `none` models a request with no
jurisdiction field (`rules[undefined]` is undefined, so the default wins).
This version models the own-property lookup only, as a closed finite map:
it ignores the JS prototype chain, under which keys such as `"toString"`
resolve to a truthy inherited `Object.prototype` member instead of the
default entry.  `getJurisdictionRulesJS` below models that full JS
member-lookup semantics; the handlers keep this simplified map, which
coincides with the JS lookup on every non-prototype-key code. -/
def getJurisdictionRules (jurisdiction : Option String) : JurisdictionRules :=
  if jurisdiction = some "US" then ⟨10000, 21, false⟩
  else if jurisdiction = some "UK" then ⟨50000, 18, false⟩
  else if jurisdiction = some "EU" then ⟨25000, 18, false⟩
  else ⟨1000, 18, false⟩

/-- Property names an object literal inherits from `Object.prototype`, in
specification order: `rules[k]` for any of these finds the inherited
member — a function (or, for `__proto__`, the prototype object) — all of
which are truthy, so `|| rules['default']` is skipped. -/
def objectProtoKeys : List String :=
  ["constructor", "hasOwnProperty", "isPrototypeOf", "propertyIsEnumerable",
   "toLocaleString", "toString", "valueOf", "__defineGetter__",
   "__defineSetter__", "__lookupGetter__", "__lookupSetter__", "__proto__"]

/-- Value produced by the JS expression `rules[jurisdiction] ||
rules['default']`: either an own data property of the `rules` object
literal (a policy entry), or a truthy member inherited from
`Object.prototype` (named by its key), on which `maxBet` and `restricted`
are both `undefined`. -/
inductive JsLookupValue where
  | entry : JurisdictionRules → JsLookupValue
  | inherited : String → JsLookupValue
deriving DecidableEq, Repr

/-- Mirrors `rules[jurisdiction] || rules['default']` with full JS
member-lookup semantics: own properties (US, UK, EU, default) are found
first; otherwise the prototype chain is consulted, so an
`Object.prototype` key yields the truthy inherited member and the
`||` fallback is skipped; only then does an absent (undefined, falsy)
member fall back to `rules['default']`. -/
def getJurisdictionRulesJS (jurisdiction : Option String) : JsLookupValue :=
  if jurisdiction = some "US" then .entry ⟨10000, 21, false⟩
  else if jurisdiction = some "UK" then .entry ⟨50000, 18, false⟩
  else if jurisdiction = some "EU" then .entry ⟨25000, 18, false⟩
  else if jurisdiction = some "default" then .entry ⟨1000, 18, false⟩
  else
    match jurisdiction with
    | some k => if k ∈ objectProtoKeys then .inherited k else .entry ⟨1000, 18, false⟩
    | none => .entry ⟨1000, 18, false⟩

/-- Enumerated denial/approval causes; each constructor corresponds to one
distinct literal reason string produced by the simple server's
betting-eligibility path. -/
inductive BReason where
  | notFoundR : BReason
  | missingR : BReason
  | expiredR : BReason
  | ageNotVerified : BReason
  | invalidAmount : BReason
  | exceedsLimit : BReason
  | restrictedJur : BReason
  | approved : BReason
deriving DecidableEq, Repr

/-- Result record of `checkBettingEligibility`: `{ eligible, reason }`. -/
structure EligResult where
  eligible : Bool
  reason : BReason
deriving DecidableEq, Repr

namespace SimpleGAP

/-- Mirrors `calculateAge` (simple-gap-server.js lines 291-297):
naive year difference, decremented when the current (month, day) is
strictly before the birth (month, day). -/
def calculateAge (birthY birthM birthD curY curM curD : Int) : Int :=
  let age := curY - birthY
  if curM < birthM ∨ (curM = birthM ∧ curD < birthD) then age - 1 else age

/-- Mirrors `generateIdentityCommitment` (simple-gap-server.js lines
285-289): hash of the template string `year-month-day-secret`,
truncated to 16 hex characters. -/
def generateIdentityCommitment (hash : String → String)
    (birthY birthM birthD : Int) (identitySecret : String) : String :=
  truncHash hash
    (birthY.repr ++ "-" ++ birthM.repr ++ "-" ++ birthD.repr ++ "-" ++ identitySecret)

/-- Proof artifact returned by the simple server's `generateZKProof`.
The `proof.pi_a/pi_b/pi_c/protocol/curve` block is a fixed constant (see
`piJsonText`); the varying parts are the two public signals and the
top-level `proofHash`, captured here. -/
structure ZKProofObj where
  signal0 : String
  signal1 : String
  proofHash : String
deriving DecidableEq, Repr

/-- Hash pre-image built by `generateZKProof` (simple-gap-server.js line
301): the template string `commitment-isEligible-Date.now()`, with the
boolean printed as `true`/`false` and the clock in milliseconds. -/
def proofHashInput (identityCommitment : String) (isEligible : Bool) (nowMs : Nat) : String :=
  identityCommitment ++ "-" ++ (if isEligible then "true" else "false") ++ "-"
    ++ Nat.repr nowMs

/-- Mirrors `generateZKProof` (simple-gap-server.js lines 299-316):
public signals are the eligibility bit and the truncated hash of
`proofHashInput`; the same truncated hash is also the `proofHash` field. -/
def generateZKProof (hash : String → String)
    (identityCommitment : String) (isEligible : Bool) (nowMs : Nat) : ZKProofObj :=
  let ph := truncHash hash (proofHashInput identityCommitment isEligible nowMs)
  ⟨if isEligible then "1" else "0", ph, ph⟩

/-- Constant JSON text of the fixed `proof` sub-object
(`pi_a`, `pi_b`, `pi_c`, `protocol`, `curve`). -/
def piJsonText : String :=
  "\x7b\"pi_a\":[\"0x1\",\"0x2\",\"0x1\"],\"pi_b\":[[\"0x1\",\"0x2\"],[\"0x3\",\"0x4\"],[\"0x1\",\"0x1\"]],\"pi_c\":[\"0x1\",\"0x2\",\"0x1\"],\"protocol\":\"groth16\",\"curve\":\"bn128\"\x7d"

/-- Mirrors `JSON.stringify(proof)` as called by `generateProofId`:
key order follows the object literal (`proof`, `publicSignals`,
`proofHash`). -/
def jsonStringifyProof (p : ZKProofObj) : String :=
  "\x7b\"proof\":" ++ piJsonText ++ ",\"publicSignals\":[\"" ++ p.signal0
    ++ "\",\"" ++ p.signal1 ++ "\"],\"proofHash\":\"" ++ p.proofHash ++ "\"\x7d"

/-- Mirrors `generateProofId` (simple-gap-server.js lines 318-321):
truncated hash of the JSON serialization of the proof. -/
def generateProofId (hash : String → String) (p : ZKProofObj) : String :=
  truncHash hash (jsonStringifyProof p)

/-- Cache entry written by `handleGenerateProof` (simple-gap-server.js
lines 147-153); `timestamp`/`expiresAt` are kept as the millisecond values
their ISO strings denote. -/
structure CachedProof where
  proof : ZKProofObj
  isEligible : Bool
  age : String
  timestamp : Nat
  expiresAt : Nat
deriving DecidableEq, Repr

/-- The in-memory `proofCache` Map, as an association list; `Map.set` is
modelled by consing (latest binding shadows older ones on lookup). -/
abbrev Cache : Type := List (String × CachedProof)

/-- Mirrors `proofCache.get(id)`. -/
def lookupCache (cache : Cache) (id : String) : Option CachedProof :=
  match (List.find? (fun e => e.1 == id) cache) with
  | some e => some e.2
  | none => none

/-- Credential issuance step inside `handleGenerateProof`: compute the
deterministic proof id and write the entry into the cache
(`this.proofCache.set(proofId, ...)`). -/
def issue (hash : String → String) (cache : Cache) (p : ZKProofObj)
    (entry : CachedProof) : String × Cache :=
  let proofId := generateProofId hash p
  (proofId, (proofId, entry) :: cache)

/-- Mirrors `checkBettingEligibility` (simple-gap-server.js lines 333-359):
`!amount || amount <= 0` is rejected as an invalid amount, then
`amount > rules.maxBet`, then `rules.restricted`, otherwise approved. -/
def checkBettingEligibility (amount : JSNum) (rules : JurisdictionRules) : EligResult :=
  if jsFalsy amount || jsLe amount (.num 0) then ⟨false, .invalidAmount⟩
  else if jsGt amount (.num rules.maxBet) then ⟨false, .exceedsLimit⟩
  else if rules.restricted then ⟨false, .restrictedJur⟩
  else ⟨true, .approved⟩

/-- Response of `POST /api/generate-commitment`
(`handleGenerateCommitment`, simple-gap-server.js lines 79-109). -/
inductive CommitResp where
  | missingFields : CommitResp
  | success : String → CommitResp
deriving DecidableEq, Repr

/-- Mirrors `handleGenerateCommitment` (simple-gap-server.js lines 79-109):
reject (400) when any of the four fields is missing or falsy
(`!birthYear || !birthMonth || !birthDay || !identitySecret`), otherwise
hash and answer 200 with the commitment.  No range validation is present. -/
def handleGenerateCommitment (hash : String → String)
    (birthY birthM birthD : Option Int) (identitySecret : Option String) : CommitResp :=
  match birthY, birthM, birthD, identitySecret with
  | some y, some m, some d, some s =>
      if y == 0 || m == 0 || d == 0 || s == "" then .missingFields
      else .success (generateIdentityCommitment hash y m d s)
  | _, _, _, _ => .missingFields

/-- Response of `POST /api/generate-proof`
(`handleGenerateProof`, simple-gap-server.js lines 111-173). -/
inductive GenProofResp where
  | missingFields : GenProofResp
  | success : String → Bool → String → GenProofResp
deriving DecidableEq, Repr

/-- True when the response is the 200 success shape. -/
def GenProofResp.isSuccess : GenProofResp → Bool
  | .success _ _ _ => true
  | .missingFields => false

/-- Mirrors `handleGenerateProof` (simple-gap-server.js lines 111-173):
reject (400) when a field is missing/falsy; otherwise compute the age with
`calculateAge` against the current date, build the simulated proof, cache it
under `generateProofId` with a 24-hour expiry, and answer 200.  The supplied
`identityCommitment` is used only as hash input: it is never recomputed or
compared against `commit(attributes)`. -/
def handleGenerateProof (hash : String → String) (cache : Cache)
    (birthY birthM birthD : Option Int)
    (identitySecret identityCommitment : Option String)
    (curY curM curD : Int) (nowMs : Nat) : GenProofResp × Cache :=
  match birthY, birthM, birthD, identitySecret, identityCommitment with
  | some y, some m, some d, some s, some c =>
      if y == 0 || m == 0 || d == 0 || s == "" || c == "" then (.missingFields, cache)
      else
        let age := calculateAge y m d curY curM curD
        let isEligible : Bool := decide (18 ≤ age)
        let proof := generateZKProof hash c isEligible nowMs
        let entry : CachedProof :=
          ⟨proof, isEligible, if isEligible then "18+" else "under_18",
            nowMs, nowMs + 86400000⟩
        let issued := issue hash cache proof entry
        (.success issued.1 isEligible proof.proofHash, issued.2)
  | _, _, _, _, _ => (.missingFields, cache)

/-- Response of `POST /api/verify-proof`
(`handleVerifyProof`, simple-gap-server.js lines 175-215). -/
inductive VerifyResp where
  | missingProofId : VerifyResp
  | notFound : VerifyResp
  | result : Bool → Bool → String → Nat → Nat → String → VerifyResp
deriving DecidableEq, Repr

/-- HTTP status code attached to each `VerifyResp` shape by the handler. -/
def VerifyResp.status : VerifyResp → Nat
  | .missingProofId => 400
  | .notFound => 404
  | .result _ _ _ _ _ _ => 200

/-- Validity bit of a `VerifyResp`, when present. -/
def VerifyResp.isValid : VerifyResp → Option Bool
  | .result v _ _ _ _ _ => some v
  | _ => none

/-- Mirrors `handleVerifyProof` (simple-gap-server.js lines 175-215):
missing id → 400, unknown id → 404, otherwise a 200 response whose
`isValid` is the negation of `now > expiresAt`, together with the cached
eligibility and the message string the handler selects. -/
def handleVerifyProof (cache : Cache) (proofId : Option String) (nowMs : Nat) : VerifyResp :=
  match proofId with
  | none => .missingProofId
  | some id =>
      if id == "" then .missingProofId
      else
        match lookupCache cache id with
        | none => .notFound
        | some c =>
            let isExpired : Bool := decide (c.expiresAt < nowMs)
            .result (!isExpired) c.isEligible c.age c.timestamp c.expiresAt
              (if !isExpired && c.isEligible then
                "Valid proof - user is eligible for sports betting"
               else if isExpired then "Proof has expired"
               else "Invalid proof or user not eligible")

/-- Response of `POST /api/betting-eligibility`
(`handleBettingEligibility`, simple-gap-server.js lines 217-278). -/
inductive BettingResp where
  | missingProofId : BettingResp
  | notFound : BettingResp
  | expiredDenial : BettingResp
  | ageDenial : BettingResp
  | verdict : Bool → Bool → BReason → ℚ → String → BettingResp
deriving DecidableEq, Repr

/-- HTTP status code of each `BettingResp` shape (expired → 400,
age denial and policy verdicts → 200). -/
def BettingResp.status : BettingResp → Nat
  | .missingProofId => 400
  | .notFound => 404
  | .expiredDenial => 400
  | .ageDenial => 200
  | .verdict _ _ _ _ _ => 200

/-- Reason reported by a `BettingResp` (each early return carries a fixed
reason string; the final shape carries the `checkBettingEligibility` reason). -/
def BettingResp.reasonOf : BettingResp → BReason
  | .missingProofId => .missingR
  | .notFound => .notFoundR
  | .expiredDenial => .expiredR
  | .ageDenial => .ageNotVerified
  | .verdict _ _ r _ _ => r

/-- Eligibility bit of a `BettingResp`: the expired and age denials carry
`eligible: false` bodies, the verdict carries the computed bit, and the
404/400 error bodies have no such field (mapped to `false`). -/
def BettingResp.eligibleOf : BettingResp → Bool
  | .verdict e _ _ _ _ => e
  | _ => false

/-- Mirrors `handleBettingEligibility` (simple-gap-server.js lines
217-278): missing id → 400, unknown id → 404, `now > expiresAt` → 400
expired denial, `!isEligible` → age denial, otherwise look up the
jurisdiction policy and delegate to `checkBettingEligibility`. -/
def handleBettingEligibility (cache : Cache) (proofId : Option String)
    (amount : JSNum) (jurisdiction : Option String) (nowMs : Nat) : BettingResp :=
  match proofId with
  | none => .missingProofId
  | some id =>
      if id == "" then .missingProofId
      else
        match lookupCache cache id with
        | none => .notFound
        | some c =>
            if c.expiresAt < nowMs then .expiredDenial
            else if !c.isEligible then .ageDenial
            else
              let rules := getJurisdictionRules jurisdiction
              let chk := checkBettingEligibility amount rules
              .verdict chk.eligible (c.isEligible && chk.eligible) chk.reason rules.maxBet
                (match jurisdiction with
                 | some j => if j == "" then "default" else j
                 | none => "default")

end SimpleGAP

namespace GapServer

/-- Number of days from 1970-01-01 to the civil date year/month/day
(proleptic Gregorian), the value `new Date(y, m - 1, d)` denotes divided by
86400000 ms.  Standard era-based civil-from-days algorithm with
floor division. -/
def daysFromCivil (y m d : Int) : Int :=
  let y2 := if m ≤ 2 then y - 1 else y
  let era := Int.fdiv y2 400
  let yoe := y2 - era * 400
  let mp := Int.emod (m + 9) 12
  let doy := Int.fdiv (153 * mp + 2) 5 + d - 1
  let doe := yoe * 365 + Int.fdiv yoe 4 - Int.fdiv yoe 100 + doy
  era * 146097 + doe - 719468

/-- Age computation inside the express server's `generateZKProof`
(gap-server.js lines 230-233):
`Math.floor((currentDate - birthDate) / (365.25 * 24 * 60 * 60 * 1000))`,
i.e. the day difference times 86400000 ms, floor-divided by 31557600000 ms
(365.25 days).  The ms quotient is exact here, so `Math.floor` on the JS
double equals integer floor division. -/
def approxAge (birthY birthM birthD curY curM curD : Int) : Int :=
  Int.fdiv ((daysFromCivil curY curM curD - daysFromCivil birthY birthM birthD) * 86400000)
    31557600000

/-- Proof artifact of the express server's `generateZKProof`: only the two
public signals vary (there is no top-level `proofHash` field). -/
structure GapProof where
  signal0 : String
  signal1 : String
deriving DecidableEq, Repr

/-- Mirrors `generateProofHash` (gap-server.js lines 254-257): hash of
`commitment-isEligible-YYYYMMDD` (year, month, day concatenated without
padding), truncated to 16 characters. -/
def generateProofHash (hash : String → String) (identityCommitment : String)
    (isEligible : String) (curY curM curD : Int) : String :=
  truncHash hash
    (identityCommitment ++ "-" ++ isEligible ++ "-" ++ curY.repr ++ curM.repr ++ curD.repr)

/-- Mirrors the express server's `generateZKProof` (gap-server.js lines
217-240): eligibility is `approxAge ≥ min_age` rendered as the string
signal `"1"`/`"0"`, the second signal is `generateProofHash`.
(`identity_secret` is part of the circuit input object but unused here.) -/
def generateZKProof (hash : String → String)
    (birthY birthM birthD : Int) (identityCommitment : String)
    (curY curM curD minAge : Int) : GapProof :=
  let age := approxAge birthY birthM birthD curY curM curD
  let isEligible := if minAge ≤ age then "1" else "0"
  ⟨isEligible, generateProofHash hash identityCommitment isEligible curY curM curD⟩

/-- Mirrors `verifyZKProof` (gap-server.js lines 242-247): the demo stub
ignores both arguments (and receives no commitment at all) and returns
`true` unconditionally. -/
def verifyZKProof (_proof : GapProof) (_publicSignals : List String) : Bool :=
  true

/-- Mirrors the express server's `checkBettingEligibility` (gap-server.js
lines 269-288): unlike the simple server there is no invalid-amount check,
only the limit and restriction tests. -/
def checkBettingEligibility (amount : JSNum) (rules : JurisdictionRules) : EligResult :=
  if jsGt amount (.num rules.maxBet) then ⟨false, .exceedsLimit⟩
  else if rules.restricted then ⟨false, .restrictedJur⟩
  else ⟨true, .approved⟩

end GapServer

namespace SpecModel

/-- Modelled from the spec: age-in-whole-years per §4.2 — the naive year
difference minus one, unless the reference date's (month, day) is
on-or-after the birth (month, day) (birthday-occurred-this-year rule, with
an exact month/day match counting as the birthday having occurred). -/
def specAgeWholeYears (birthY birthM birthD curY curM curD : Int) : Int :=
  if curM > birthM ∨ (curM = birthM ∧ curD ≥ birthD) then curY - birthY
  else curY - birthY - 1

/-- Modelled from the spec: the §4.4 decision order for the eligibility
engine — (1) expired, (2) predicate false, (3) invalid amount,
(4) jurisdiction restricted, (5) amount over the policy limit,
(6) approved — with each individual check read off the code, and the first
failing check naming the reason. -/
def specDecisionOrder (c : SimpleGAP.CachedProof) (amount : JSNum)
    (jurisdiction : Option String) (nowMs : Nat) : BReason :=
  if c.expiresAt < nowMs then .expiredR
  else if !c.isEligible then .ageNotVerified
  else if jsFalsy amount || jsLe amount (.num 0) then .invalidAmount
  else if (getJurisdictionRules jurisdiction).restricted then .restrictedJur
  else if jsGt amount (.num (getJurisdictionRules jurisdiction).maxBet) then .exceedsLimit
  else .approved

end SpecModel

/-! ## Shared helper lemmas -/

/-- Every entry of the jurisdiction table, including the default,
carries `restricted = false`. -/
theorem getJurisdictionRules_not_restricted (j : Option String) :
    (getJurisdictionRules j).restricted = false := by
  unfold getJurisdictionRules
  split_ifs <;> rfl

/-- Left cancellation for string concatenation. -/
theorem string_append_cancel_left (a x y : String) (h : a ++ x = a ++ y) : x = y := by
  apply String.ext
  have hd := congrArg String.data h
  rw [String.data_append, String.data_append] at hd
  exact List.append_cancel_left hd

end AgeVerificationDapp

namespace AgeVerificationDapp

open SimpleGAP

/-! ## Claim theorems -/

/-- C8: issuance is idempotent — issuing the byte-identical proof a second
time (on the cache produced by the first issuance) yields the same
credential id, because `generateProofId` depends only on the proof. -/
theorem c8_issue_idempotent (hash : String → String) (cache : Cache)
    (p : ZKProofObj) (e₁ e₂ : CachedProof) :
    (issue hash (issue hash cache p e₁).2 p e₂).1 = (issue hash cache p e₁).1 := rfl

/-- C9 counterexample: the code "toString" is none of US, UK and EU, yet
the JS lookup does not resolve it to the default policy entry — it finds
the truthy inherited `Object.prototype.toString`, so the
`|| rules['default']` fallback is skipped and the claim's "any other
string resolves to the default entry" fails. -/
theorem c9_counterexample :
    getJurisdictionRulesJS (some "toString") = .inherited "toString"
    ∧ getJurisdictionRulesJS (some "toString") ≠ .entry ⟨1000, 18, false⟩
    ∧ ("toString" : String) ≠ "US" ∧ ("toString" : String) ≠ "UK"
    ∧ ("toString" : String) ≠ "EU" := by
  refine ⟨by decide, by decide, by decide, by decide, by decide⟩

/-- C9 (amended): the lookup never throws, and any code other than US, UK
and EU that is not the name of an inherited `Object.prototype` member
(including "XX", the own key "default", and a missing field) resolves to
the default policy entry with `maxBet = 1000` and `restricted = false`;
codes naming inherited `Object.prototype` members ("toString",
"constructor", "valueOf", ...) instead resolve to the truthy inherited
member, skipping the `||` fallback, and so do not receive the default
entry. -/
theorem c9_default_policy (j : Option String)
    (hus : j ≠ some "US") (huk : j ≠ some "UK") (heu : j ≠ some "EU")
    (hproto : j ∉ objectProtoKeys.map some) :
    getJurisdictionRulesJS j = .entry ⟨1000, 18, false⟩
    ∧ ∀ k, k ∈ objectProtoKeys → getJurisdictionRulesJS (some k) = .inherited k := by
  constructor
  · unfold getJurisdictionRulesJS
    rw [if_neg hus, if_neg huk, if_neg heu]
    by_cases hdef : j = some "default"
    · simp [hdef]
    · rw [if_neg hdef]
      cases j with
      | none => rfl
      | some k =>
          have hk : k ∉ objectProtoKeys := fun hmem =>
            hproto (List.mem_map_of_mem some hmem)
          simp [hk]
  · intro k hk
    simp only [objectProtoKeys, List.mem_cons, List.mem_singleton,
      List.not_mem_nil, or_false] at hk
    rcases hk with rfl | rfl | rfl | rfl | rfl | rfl | rfl | rfl | rfl | rfl | rfl | rfl
      <;> decide

/-- C9 witness: the unknown code "XX" resolves to the default entry, and
each inherited `Object.prototype` key (here instantiated through the
theorem's second conjunct at "toString") resolves to the inherited member. -/
theorem c9_default_policy_witness :
    getJurisdictionRulesJS (some "XX") = .entry ⟨1000, 18, false⟩
    ∧ getJurisdictionRulesJS (some "toString") = .inherited "toString" :=
  ⟨(c9_default_policy (some "XX") (by decide) (by decide) (by decide) (by decide)).1,
   (c9_default_policy (some "XX") (by decide) (by decide) (by decide) (by decide)).2
     "toString" (by decide)⟩

/-- C4: for every cached credential, requested amount and jurisdiction
code, the reason reported by the betting-eligibility endpoint is the first
failing check of the spec's decision order (expired, predicate, invalid
amount, restricted jurisdiction, amount over limit, approved); in
particular an expired credential always reports the expiry reason, and a
restricted-jurisdiction denial would precede an amount denial (vacuously,
as every table entry has `restricted = false`). -/
theorem c4_decision_order (cache : Cache) (id : String) (c : CachedProof)
    (amount : JSNum) (jur : Option String) (nowMs : Nat)
    (hid : id ≠ "") (hfound : lookupCache cache id = some c) :
    (handleBettingEligibility cache (some id) amount jur nowMs).reasonOf
        = SpecModel.specDecisionOrder c amount jur nowMs
    ∧ ((handleBettingEligibility cache (some id) amount jur nowMs).eligibleOf = true
        ↔ SpecModel.specDecisionOrder c amount jur nowMs = .approved) := by
  have hid' : (id == "") = false := by simpa using hid
  unfold handleBettingEligibility SpecModel.specDecisionOrder
  simp only [hid', Bool.false_eq_true, if_false, hfound]
  by_cases hexp : c.expiresAt < nowMs
  · simp [hexp, BettingResp.reasonOf, BettingResp.eligibleOf]
  · by_cases helig : c.isEligible
    · unfold checkBettingEligibility
      simp only [hexp, if_false, helig, Bool.not_true, Bool.false_eq_true, if_false]
      rw [getJurisdictionRules_not_restricted]
      by_cases hinv : (jsFalsy amount || jsLe amount (.num 0)) = true
      · simp [hinv, BettingResp.reasonOf, BettingResp.eligibleOf]
      · by_cases hgt : jsGt amount (.num (getJurisdictionRules jur).maxBet) = true
        · simp [hinv, hgt, BettingResp.reasonOf, BettingResp.eligibleOf]
        · simp [hinv, hgt, BettingResp.reasonOf, BettingResp.eligibleOf]
    · simp [hexp, helig, BettingResp.reasonOf, BettingResp.eligibleOf]

/-- C4 witness: a concrete eligible unexpired credential with amount 500
and jurisdiction "US" evaluates per the spec's decision order. -/
theorem c4_decision_order_witness :
    (handleBettingEligibility [("p1", ⟨⟨"1", "h", "h"⟩, true, "18+", 0, 100⟩)]
        (some "p1") (.num 500) (some "US") 50).reasonOf
      = SpecModel.specDecisionOrder ⟨⟨"1", "h", "h"⟩, true, "18+", 0, 100⟩
          (.num 500) (some "US") 50 :=
  (c4_decision_order [("p1", ⟨⟨"1", "h", "h"⟩, true, "18+", 0, 100⟩)] "p1"
    ⟨⟨"1", "h", "h"⟩, true, "18+", 0, 100⟩ (.num 500) (some "US") 50
    (by decide) (by decide)).1

/-- C5 counterexample: the claim's "404 vs. 410 at the interface" is false —
looking up a credential whose expiry (100) is before the current time (200)
answers HTTP 200 (with `isValid = false` and the expiry message), not 410. -/
theorem c5_counterexample :
    (handleVerifyProof [("p1", ⟨⟨"1", "h", "h"⟩, true, "18+", 0, 100⟩)]
        (some "p1") 200).status = 200
    ∧ (handleVerifyProof [("p1", ⟨⟨"1", "h", "h"⟩, true, "18+", 0, 100⟩)]
        (some "p1") 200).status ≠ 410
    ∧ handleVerifyProof [("p1", ⟨⟨"1", "h", "h"⟩, true, "18+", 0, 100⟩)]
        (some "p1") 200
      = .result false true "18+" 0 100 "Proof has expired" := by
  refine ⟨by decide, by decide, by decide⟩

/-- C5 (amended): an id never issued yields 404 NotFound; an id whose
`expires_at` is before the current time yields a distinct outcome — a 200
response with `isValid = false` (not 410) — and an expired credential is
never reported valid, and betting eligibility on it is denied with the
expiry reason, regardless of its `predicate_result`. -/
theorem c5_expired_vs_notfound (cache : Cache) (id id2 : String) (c : CachedProof)
    (nowMs : Nat) (amount : JSNum) (jur : Option String)
    (hid : id ≠ "") (hfound : lookupCache cache id = some c)
    (hexp : c.expiresAt < nowMs)
    (hid2 : id2 ≠ "") (hmiss : lookupCache cache id2 = none) :
    (handleVerifyProof cache (some id2) nowMs).status = 404
    ∧ (handleVerifyProof cache (some id) nowMs).status = 200
    ∧ (handleVerifyProof cache (some id) nowMs).isValid = some false
    ∧ handleVerifyProof cache (some id) nowMs
        = .result false c.isEligible c.age c.timestamp c.expiresAt "Proof has expired"
    ∧ (handleBettingEligibility cache (some id) amount jur nowMs).reasonOf = .expiredR
    ∧ (handleBettingEligibility cache (some id) amount jur nowMs).eligibleOf = false
    ∧ (handleBettingEligibility cache (some id) amount jur nowMs).status = 400 := by
  have hid' : (id == "") = false := by simpa using hid
  have hid2' : (id2 == "") = false := by simpa using hid2
  unfold handleVerifyProof handleBettingEligibility
  simp [hid', hid2', hfound, hmiss, hexp, VerifyResp.status, VerifyResp.isValid,
    BettingResp.reasonOf, BettingResp.eligibleOf, BettingResp.status]

/-- C5 witness: concrete two-entry cache exercising both the 404 branch
(unknown id "nope") and the expired branch (id "p1", expiry 100 < now 200). -/
theorem c5_expired_vs_notfound_witness :
    (handleVerifyProof [("p1", ⟨⟨"1", "h", "h"⟩, true, "18+", 0, 100⟩)]
        (some "nope") 200).status = 404
    ∧ (handleVerifyProof [("p1", ⟨⟨"1", "h", "h"⟩, true, "18+", 0, 100⟩)]
        (some "p1") 200).status = 200
    ∧ (handleVerifyProof [("p1", ⟨⟨"1", "h", "h"⟩, true, "18+", 0, 100⟩)]
        (some "p1") 200).isValid = some false
    ∧ handleVerifyProof [("p1", ⟨⟨"1", "h", "h"⟩, true, "18+", 0, 100⟩)]
        (some "p1") 200
      = .result false true "18+" 0 100 "Proof has expired"
    ∧ (handleBettingEligibility [("p1", ⟨⟨"1", "h", "h"⟩, true, "18+", 0, 100⟩)]
        (some "p1") (.num 500) (some "US") 200).reasonOf = .expiredR
    ∧ (handleBettingEligibility [("p1", ⟨⟨"1", "h", "h"⟩, true, "18+", 0, 100⟩)]
        (some "p1") (.num 500) (some "US") 200).eligibleOf = false
    ∧ (handleBettingEligibility [("p1", ⟨⟨"1", "h", "h"⟩, true, "18+", 0, 100⟩)]
        (some "p1") (.num 500) (some "US") 200).status = 400 :=
  c5_expired_vs_notfound [("p1", ⟨⟨"1", "h", "h"⟩, true, "18+", 0, 100⟩)]
    "p1" "nope" ⟨⟨"1", "h", "h"⟩, true, "18+", 0, 100⟩ 200 (.num 500) (some "US")
    (by decide) (by decide) (by decide) (by decide) (by decide)

/-- C6 counterexample: month 13 is outside 1..12, yet the commitment
endpoint answers success with the hash of the raw, unclamped input
`"2000-13-1-s"` (here under the concrete stand-in hash `strRev`) —
no `InvalidAttributes` failure occurs and no range check exists. -/
theorem c6_counterexample :
    handleGenerateCommitment strRev (some 2000) (some 13) (some 1) (some "s")
      = .success "s-1-31-0002"
    ∧ ¬ ((1 : Int) ≤ 13 ∧ (13 : Int) ≤ 12) := by
  refine ⟨by decide, by decide⟩

/-- C6 (amended): the commitment endpoint rejects only missing/falsy
fields, and does so before any hashing (the rejection is independent of the
hash function); any present, truthy field values — in range or not — are
accepted and hashed as-is, with no range validation and no clamping. -/
theorem c6_no_range_validation (h₁ h₂ : String → String)
    (birthY birthM birthD : Option Int) (identitySecret : Option String) :
    (handleGenerateCommitment h₁ birthY birthM birthD identitySecret = .missingFields →
        handleGenerateCommitment h₂ birthY birthM birthD identitySecret = .missingFields)
    ∧ (∀ y m d s, birthY = some y → birthM = some m → birthD = some d →
        identitySecret = some s →
        (y == 0 || m == 0 || d == 0 || s == "") = false →
        handleGenerateCommitment h₁ birthY birthM birthD identitySecret
          = .success (generateIdentityCommitment h₁ y m d s)) := by
  constructor
  · intro hmiss
    match birthY, birthM, birthD, identitySecret with
    | some y, some m, some d, some s =>
        unfold handleGenerateCommitment at hmiss ⊢
        by_cases hz : (y == 0 || m == 0 || d == 0 || s == "") = true
        · simp [hz]
        · simp [hz] at hmiss
    | none, _, _, _ => rfl
    | some _, none, _, _ => rfl
    | some _, some _, none, _ => rfl
    | some _, some _, some _, none => rfl
  · intro y m d s hy hm hd hs hz
    subst hy; subst hm; subst hd; subst hs
    unfold handleGenerateCommitment
    simp [hz]

/-- C6 witness: a missing birth year is rejected identically under two
different hash functions (no hashing needed), while the out-of-range month
13 is accepted and hashed raw. -/
theorem c6_no_range_validation_witness :
    handleGenerateCommitment (fun s => s) none (some 1) (some 2) (some "s")
      = .missingFields
    ∧ handleGenerateCommitment strRev (some 2000) (some 13) (some 1) (some "s")
      = .success (generateIdentityCommitment strRev 2000 13 1 "s") :=
  ⟨(c6_no_range_validation strRev (fun s => s) none (some 1) (some 2) (some "s")).1
      (by decide),
   (c6_no_range_validation strRev (fun s => s) (some 2000) (some 13) (some 1)
      (some "s")).2 2000 13 1 "s" rfl rfl rfl rfl (by decide)⟩

/-- C7 counterexample: with a concrete unexpired, eligible credential, the
amount `+Infinity` — non-finite, so the claim demands `InvalidAmount` — is
reported as `AmountExceedsLimit` by the simple server (since
`Infinity > maxBet` is true and `!Infinity` is false); moreover the express
server's `checkBettingEligibility` has no invalid-amount check at all and
approves the amount `-5`. -/
theorem c7_counterexample :
    (handleBettingEligibility [("p1", ⟨⟨"1", "h", "h"⟩, true, "18+", 0, 100⟩)]
        (some "p1") .inf (some "US") 50).reasonOf = .exceedsLimit
    ∧ BReason.exceedsLimit ≠ BReason.invalidAmount
    ∧ GapServer.checkBettingEligibility (.num (-5)) (getJurisdictionRules (some "XX"))
      = ⟨true, .approved⟩ := by
  refine ⟨by decide, by decide, by decide⟩

/-- C7 (amended): in the simple server, for an unexpired credential with
`predicate_result = true`, an amount that is falsy (missing, NaN, 0) or
`<= 0` (including -Infinity) yields `reason = InvalidAmount` with
`eligible = false`; the finite-amount part of the claim holds, but
`+Infinity` falls through to the exceeds-limit check instead, and the
express server performs no invalid-amount check at all. -/
theorem c7_invalid_amount (cache : Cache) (id : String) (c : CachedProof)
    (jur : Option String) (nowMs : Nat) (amount : JSNum)
    (hid : id ≠ "") (hfound : lookupCache cache id = some c)
    (hexp : ¬ c.expiresAt < nowMs) (helig : c.isEligible = true)
    (hamt : (jsFalsy amount || jsLe amount (.num 0)) = true) :
    (handleBettingEligibility cache (some id) amount jur nowMs).reasonOf = .invalidAmount
    ∧ (handleBettingEligibility cache (some id) amount jur nowMs).eligibleOf = false := by
  have hid' : (id == "") = false := by simpa using hid
  unfold handleBettingEligibility checkBettingEligibility
  simp [hid', hfound, hexp, helig, hamt, BettingResp.reasonOf, BettingResp.eligibleOf]

/-- C7 witness: NaN (a non-finite amount) is reported as `InvalidAmount`
on a concrete unexpired eligible credential. -/
theorem c7_invalid_amount_witness :
    (handleBettingEligibility [("p1", ⟨⟨"1", "h", "h"⟩, true, "18+", 0, 100⟩)]
        (some "p1") .nan (some "US") 50).reasonOf = .invalidAmount
    ∧ (handleBettingEligibility [("p1", ⟨⟨"1", "h", "h"⟩, true, "18+", 0, 100⟩)]
        (some "p1") .nan (some "US") 50).eligibleOf = false :=
  c7_invalid_amount [("p1", ⟨⟨"1", "h", "h"⟩, true, "18+", 0, 100⟩)] "p1"
    ⟨⟨"1", "h", "h"⟩, true, "18+", 0, 100⟩ (some "US") 50 .nan
    (by decide) (by decide) (by decide) (by decide) (by decide)

/-- C1 counterexample: a request whose supplied commitment "zzz" provably
differs from the recomputed `commit(attributes)` (under the concrete
stand-in hash `strRev`) still succeeds, and a credential is issued and
cached — the server never recomputes or compares the commitment, so no
`ProofGenerationFailed` occurs. -/
theorem c1_counterexample :
    generateIdentityCommitment strRev 2000 1 1 "s" ≠ "zzz"
    ∧ (handleGenerateProof strRev [] (some 2000) (some 1) (some 1) (some "s")
        (some "zzz") 2024 5 15 1000).1.isSuccess = true
    ∧ (handleGenerateProof strRev [] (some 2000) (some 1) (some 1) (some "s")
        (some "zzz") 2024 5 15 1000).2.length = 1 := by
  refine ⟨by decide, by decide, by decide⟩

/-- C1 (amended): the simple server performs no commitment check during
proof generation — for every supplied commitment, matching
`commit(attributes)` or not, the request succeeds (200) and a credential is
issued and cached under the deterministic proof id with a 24-hour expiry;
the commitment-equality constraint exists only in the shipped circom
circuit, which neither server invokes. -/
theorem c1_no_commitment_check (hash : String → String) (cache : Cache)
    (y m d : Int) (s c : String) (curY curM curD : Int) (nowMs : Nat)
    (hy : y ≠ 0) (hm : m ≠ 0) (hd : d ≠ 0) (hs : s ≠ "") (hc : c ≠ "") :
    (handleGenerateProof hash cache (some y) (some m) (some d) (some s) (some c)
        curY curM curD nowMs).1
      = .success
          (generateProofId hash
            (generateZKProof hash c (decide (18 ≤ calculateAge y m d curY curM curD)) nowMs))
          (decide (18 ≤ calculateAge y m d curY curM curD))
          (generateZKProof hash c (decide (18 ≤ calculateAge y m d curY curM curD)) nowMs).proofHash
    ∧ (handleGenerateProof hash cache (some y) (some m) (some d) (some s) (some c)
        curY curM curD nowMs).2
      = (generateProofId hash
            (generateZKProof hash c (decide (18 ≤ calculateAge y m d curY curM curD)) nowMs),
          ⟨generateZKProof hash c (decide (18 ≤ calculateAge y m d curY curM curD)) nowMs,
            decide (18 ≤ calculateAge y m d curY curM curD),
            if decide (18 ≤ calculateAge y m d curY curM curD) then "18+" else "under_18",
            nowMs, nowMs + 86400000⟩) :: cache := by
  have hz : (y == 0 || m == 0 || d == 0 || s == "" || c == "") = false := by
    simp [hy, hm, hd, hs, hc]
  unfold handleGenerateProof issue
  simp [hz]

/-- C1 witness: concrete instantiation (commitment "zzz", birth 2000-01-01,
reference date 2024-05-15, clock 1000 ms) of the no-commitment-check
theorem. -/
theorem c1_no_commitment_check_witness :
    (handleGenerateProof strRev [] (some 2000) (some 1) (some 1) (some "s")
        (some "zzz") 2024 5 15 1000).1
      = .success
          (generateProofId strRev
            (generateZKProof strRev "zzz" (decide (18 ≤ calculateAge 2000 1 1 2024 5 15)) 1000))
          (decide (18 ≤ calculateAge 2000 1 1 2024 5 15))
          (generateZKProof strRev "zzz"
            (decide (18 ≤ calculateAge 2000 1 1 2024 5 15)) 1000).proofHash
    ∧ (handleGenerateProof strRev [] (some 2000) (some 1) (some 1) (some "s")
        (some "zzz") 2024 5 15 1000).2
      = [(generateProofId strRev
            (generateZKProof strRev "zzz" (decide (18 ≤ calculateAge 2000 1 1 2024 5 15)) 1000),
          ⟨generateZKProof strRev "zzz" (decide (18 ≤ calculateAge 2000 1 1 2024 5 15)) 1000,
            decide (18 ≤ calculateAge 2000 1 1 2024 5 15),
            if decide (18 ≤ calculateAge 2000 1 1 2024 5 15) then "18+" else "under_18",
            1000, 1000 + 86400000⟩)] :=
  c1_no_commitment_check strRev [] 2000 1 1 "s" "zzz" 2024 5 15 1000
    (by decide) (by decide) (by decide) (by decide) (by decide)

/-- C2 counterexample: for birth 2000-03-01 and reference 2018-03-01 the
claim's birthday rule gives exactly 18 (eligible), and the simple server
agrees, but the express server's `generateZKProof` uses the
365.25-day approximation (the 18-year span contains only four leap days,
6574 days < 18 times 365.25) and emits predicate signal "0" (age 17) — the
predicate result does not equal age-in-whole-years ≥ 18 there. -/
theorem c2_counterexample :
    (GapServer.generateZKProof strRev 2000 3 1 "c" 2018 3 1 18).signal0 = "0"
    ∧ GapServer.approxAge 2000 3 1 2018 3 1 = 17
    ∧ SpecModel.specAgeWholeYears 2000 3 1 2018 3 1 = 18
    ∧ calculateAge 2000 3 1 2018 3 1 = 18 := by
  refine ⟨by decide, by decide, by decide, by decide⟩

/-- C2 (amended): the simple server's `calculateAge` computes exactly the
spec's age-in-whole-years (naive year difference, minus one unless the
reference (month, day) is on-or-after the birth (month, day)), and an exact
month/day match counts as the birthday having occurred; the express
server's `generateZKProof`, however, uses a 365.25-day-per-year
approximation that disagrees with this rule on some dates. -/
theorem c2_birthday_rule (birthY birthM birthD curY curM curD : Int) :
    calculateAge birthY birthM birthD curY curM curD
      = SpecModel.specAgeWholeYears birthY birthM birthD curY curM curD
    ∧ calculateAge birthY birthM birthD curY birthM birthD = curY - birthY
    ∧ (decide (18 ≤ calculateAge birthY birthM birthD curY curM curD)
        = decide (18 ≤ SpecModel.specAgeWholeYears birthY birthM birthD curY curM curD)) := by
  have h : calculateAge birthY birthM birthD curY curM curD
      = SpecModel.specAgeWholeYears birthY birthM birthD curY curM curD := by
    unfold calculateAge SpecModel.specAgeWholeYears
    split_ifs <;> (dsimp only; try omega)
  refine ⟨h, ?_, by rw [h]⟩
  unfold calculateAge
  split_ifs <;> (dsimp only; try omega)

/-- C3 counterexample: the express server's `verifyZKProof` returns true
for the proof generated against commitment "abc" even in a context where
the commitment has been altered to the different value "abd" — it receives
no commitment at all and cannot return false, contradicting the claim that
verification fails for an altered commitment. -/
theorem c3_counterexample :
    ("abc" : String) ≠ "abd"
    ∧ GapServer.verifyZKProof
        (GapServer.generateZKProof strRev 1990 5 15 "abc" 2024 5 15 18) ["1", "x"] = true
    ∧ GapServer.verifyZKProof
        (GapServer.generateZKProof strRev 1990 5 15 "abd" 2024 5 15 18) ["1", "x"] = true := by
  refine ⟨by decide, rfl, rfl⟩

/-- C3 (amended): `verifyZKProof` is a demo stub that ignores its proof and
public-signal arguments, takes no commitment parameter, and returns true
unconditionally — so it never returns false, for altered commitments or
otherwise. -/
theorem c3_verify_always_true (p : GapServer.GapProof) (publicSignals : List String) :
    GapServer.verifyZKProof p publicSignals = true := rfl

/-- Serialized proofs with identical eligibility signal but different
proof-hash fields are different JSON strings (the serialization is
injective in the proof hash). -/
theorem jsonStringify_inj_hash (e ph₁ ph₂ : String)
    (h : jsonStringifyProof ⟨e, ph₁, ph₁⟩ = jsonStringifyProof ⟨e, ph₂, ph₂⟩) :
    ph₁ = ph₂ := by
  have hd := congrArg String.data h
  simp only [jsonStringifyProof, String.data_append, List.append_assoc] at hd
  have hd1 := List.append_cancel_left hd
  have hd2 := List.append_cancel_left hd1
  have hd3 := List.append_cancel_left hd2
  have hd4 := List.append_cancel_left hd3
  have hd5 := List.append_cancel_left hd4
  have hlen := congrArg List.length hd5
  simp only [List.length_append] at hlen
  exact String.ext (List.append_inj hd5 (by omega)).1

/-- C10: the simple server's `generateZKProof` mixes the `Date.now()`
millisecond clock into the proof-hash pre-image, so two runs with identical
commitment and eligibility at different milliseconds hash different
pre-images, and — whenever the truncated hash separates those pre-images
and the resulting serialized proofs (SHA-256 is an opaque parameter here,
so its collision-freeness at the two relevant points is a hypothesis) —
produce different proofs, different JSON serializations, and different
credential ids.  Two runs in the same millisecond are the same function
application in this pure embedding and trivially yield the identical proof
and id. -/
theorem c10_clock_mixing (hash : String → String) (c : String) (elig : Bool)
    (t₁ t₂ : Nat) (_ht : t₁ ≠ t₂)
    (hcol : truncHash hash (proofHashInput c elig t₁)
        ≠ truncHash hash (proofHashInput c elig t₂))
    (hcol2 : truncHash hash (jsonStringifyProof (generateZKProof hash c elig t₁))
        ≠ truncHash hash (jsonStringifyProof (generateZKProof hash c elig t₂))) :
    proofHashInput c elig t₁ ≠ proofHashInput c elig t₂
    ∧ generateZKProof hash c elig t₁ ≠ generateZKProof hash c elig t₂
    ∧ jsonStringifyProof (generateZKProof hash c elig t₁)
        ≠ jsonStringifyProof (generateZKProof hash c elig t₂)
    ∧ generateProofId hash (generateZKProof hash c elig t₁)
        ≠ generateProofId hash (generateZKProof hash c elig t₂) := by
  refine ⟨?_, ?_, ?_, ?_⟩
  · intro he
    exact hcol (by rw [he])
  · intro he
    exact hcol (by simpa [generateZKProof] using congrArg ZKProofObj.proofHash he)
  · intro he
    exact hcol (jsonStringify_inj_hash (if elig then "1" else "0")
      (truncHash hash (proofHashInput c elig t₁))
      (truncHash hash (proofHashInput c elig t₂))
      (by simpa [generateZKProof] using he))
  · intro he
    exact hcol2 (by simpa [generateProofId] using he)

set_option maxRecDepth 100000 in
/-- C10 witness: under the concrete stand-in hash `strRev`, the runs at
milliseconds 1 and 2 (commitment "cc", eligible) yield different proofs and
different credential ids. -/
theorem c10_clock_mixing_witness :
    generateZKProof strRev "cc" true 1 ≠ generateZKProof strRev "cc" true 2
    ∧ generateProofId strRev (generateZKProof strRev "cc" true 1)
        ≠ generateProofId strRev (generateZKProof strRev "cc" true 2) :=
  ⟨(c10_clock_mixing strRev "cc" true 1 2 (by decide) (by decide) (by decide)).2.1,
   (c10_clock_mixing strRev "cc" true 1 2 (by decide) (by decide) (by decide)).2.2.2⟩

end AgeVerificationDapp
